import Mathlib

/-!
Verification of `crates/bevy_reflect/derive/src/enum_utility.rs`, the enum
variant code-synthesis engine of `bevy_reflect`'s derive macros.

The Rust module builds, for each enum variant, a match pattern and a
constructor expression as `proc_macro2::TokenStream`s, parameterized by a
`VariantBuilder` strategy (`FromReflectVariantBuilder`,
`TryApplyVariantBuilder`, `ReflectCloneVariantBuilder`).

We embed token streams as lists of token trees (`Tok`), with `quote!`
interpolation modelled as list concatenation and brace/paren groups as a
`Tok.group` node.  Fully-qualified Rust paths are abstracted into single
identifier tokens holding their full text.
-/

namespace EnumUtility

/-- Delimiter of a `proc_macro2::Group`. -/
inductive Delim where
  | brace
  | paren
  | bracket
deriving DecidableEq, Repr

/-- A token tree as produced by `quote!`: identifiers / paths, string
literals, integer literals, punctuation, and delimited groups. -/
inductive Tok where
  | id (s : String)
  | lit (s : String)
  | nat (n : Nat)
  | pn (s : String)
  | group (d : Delim) (ts : List Tok)

/-- A `proc_macro2::TokenStream`, flattened to a list of token trees. -/
abbrev TokenStream := List Tok

/-- The `bevy_macro_utils::fq_std::FQOption` path. -/
def FQOption : String := "::core::option::Option"

/-- The `bevy_macro_utils::fq_std::FQDefault` path. -/
def FQDefault : String := "::core::default::Default"

/-- The `bevy_macro_utils::fq_std::FQClone` path. -/
def FQClone : String := "::core::clone::Clone"

/-- The `bevy_macro_utils::fq_std::FQResult` path. -/
def FQResult : String := "::core::result::Result"

/-- Tokens of a qualified-path method reference `<ty as tr>::m`. -/
def qpath (ty tr m : String) : TokenStream :=
  [.pn "<", .id ty, .id "as", .id tr, .pn ">", .pn "::", .id m]

/-- The `field_attributes::DefaultBehavior` enum: how an absent
dynamically-accessed field obtains a value. -/
inductive DefaultBehavior where
  | Required
  | Default
  | Func (path : String)
deriving DecidableEq, Repr, Inhabited

/-- The `field_attributes::CloneBehavior` enum: how `reflect_clone`
obtains a field's value. -/
inductive CloneBehavior where
  | Default
  | Trait
  | Func (clone_fn : String)
deriving DecidableEq, Repr, Inhabited

/-- The per-field attribute record (`field_attributes::FieldAttributes`):
ignore flag (`attrs.ignore.is_ignored()` collapsed to a `Bool`), default
behavior, clone behavior, and the optional remote wrapper type. -/
structure FieldAttributes where
  ignore : Bool
  default : DefaultBehavior
  clone : CloneBehavior
  remote : Option String
deriving DecidableEq, Repr, Inhabited

/-- The `syn::Field` payload of a `StructField`: only the optional field
identifier is consulted by this module. -/
structure StructFieldData where
  ident : Option String
deriving DecidableEq, Repr, Inhabited

/-- `derive_data::StructField`: field data, attributes, declaration index,
optional reflection index, and the reflected type (`reflected_type()`),
abstracted to the type's path text. -/
structure StructField where
  data : StructFieldData
  attrs : FieldAttributes
  declaration_index : Nat
  reflection_index : Option Nat
  reflected_type : String
deriving DecidableEq, Repr, Inhabited

/-- The `syn::Variant` payload of an enum variant: its identifier. -/
structure EnumVariantData where
  ident : String
deriving DecidableEq, Repr, Inhabited

/-- An enum variant: its `syn` data and its fields (`variant.fields()`). -/
structure EnumVariant where
  data : EnumVariantData
  fields : List StructField
deriving DecidableEq, Repr, Inhabited

/-- `derive_data::ReflectEnum`, reduced to what this module consults: the
variant list, the resolved `bevy_reflect` crate path
(`meta().bevy_reflect_path()`), and the path of the enum type itself
(used by `get_unit`). -/
structure ReflectEnum where
  variants : List EnumVariant
  bevy_reflect_path : String
  enum_path : String
deriving DecidableEq, Repr

/-- Modelled from the spec: `ReflectEnum::get_unit` (defined in
`derive_data.rs`, outside the sources given) returns the fully-qualified
constructor/pattern prefix of a variant, i.e. the enum path followed by
the variant identifier. -/
def ReflectEnum.get_unit (e : ReflectEnum) (variant_ident : String) : TokenStream :=
  [.id e.enum_path, .pn "::", .id variant_ident]

/-- A `syn::Member`: a named field identifier or a positional index. -/
inductive Member where
  | named (s : String)
  | unnamed (n : Nat)
deriving DecidableEq, Repr

/-- Modelled from the spec: `ident::ident_or_index` (outside the sources
given) builds a `syn::Member` from a field's optional identifier and its
declaration index — the name when present, the index otherwise. -/
def ident_or_index : Option String → Nat → Member
  | some i, _ => .named i
  | none, n => .unnamed n

/-- Tokens a `syn::Member` interpolates to. -/
def Member.toks : Member → TokenStream
  | .named s => [.id s]
  | .unnamed n => [.nat n]

/-- The alias_ `format_ident!("_{}", member)` generates for a member. -/
def Member.aliasIdent : Member → String
  | .named s => "_" ++ s
  | .unnamed n => "_" ++ toString n

/-- `VariantField`: alias_ symbol, owning variant name, and field. -/
structure VariantField where
  alias_ : String
  variant_name : String
  field : StructField
deriving DecidableEq, Repr

/-- Modelled from the spec: `StructField::field_id` (defined in
`derive_data.rs`, outside the sources given) renders the field's
reflectable identifier — its declared name for named fields, its
declaration index for positional fields. -/
def StructField.field_id (field : StructField) (bevy_reflect_path : String) : TokenStream :=
  match field.data.ident with
  | some name => [.id (bevy_reflect_path ++ "::FieldId::Named"), .group .paren [.lit name]]
  | none =>
      [.id (bevy_reflect_path ++ "::FieldId::Unnamed"),
       .group .paren [.nat field.declaration_index]]

/-- The compile-error stand-in emitted for a field with no reflectable
identity: `::core::compile_error!("internal bevy_reflect error: field
should be active")`. -/
def internalErrorToks : TokenStream :=
  [.id "::core::compile_error", .pn "!",
   .group .paren [.lit "internal bevy_reflect error: field should be active"]]

/-- Default `VariantBuilder::access_field`: name-based lookup
`#this.field(#name)` when the field has an identifier, index-based lookup
`#this.field_at(#field_index)` when it has a reflection index, and the
compile-error stand-in otherwise. -/
def accessFieldDefault (this : String) (field : VariantField) : TokenStream :=
  match field.field.data.ident with
  | some field_ident =>
      let name := field_ident
      [.id this, .pn ".", .id "field", .group .paren [.lit name]]
  | none =>
      match field.field.reflection_index with
      | some field_index =>
          [.id this, .pn ".", .id "field_at", .group .paren [.nat field_index]]
      | none => internalErrorToks

/-- The `construction` local of the default
`VariantBuilder::on_active_field`: the branch on `attrs.default`, built
from the strategy's `access_field`, `unwrap_field` and `construct_field`
hooks. -/
def activeFieldConstruction
    (access_field : String → VariantField → TokenStream)
    (unwrap_field : VariantField → TokenStream)
    (construct_field : VariantField → TokenStream)
    (this : String) (field : VariantField) : TokenStream :=
  let field_accessor := access_field this field
  let alias_ := field.alias_
  let field_constructor := construct_field field
  match field.field.attrs.default with
  | .Func path =>
      [.id "if", .id "let", .id (FQOption ++ "::Some"), .group .paren [.id alias_], .pn "="]
        ++ field_accessor
        ++ [.group .brace field_constructor, .id "else",
            .group .brace [.id path, .group .paren []]]
  | .Default =>
      [.id "if", .id "let", .id (FQOption ++ "::Some"), .group .paren [.id alias_], .pn "="]
        ++ field_accessor
        ++ [.group .brace field_constructor, .id "else",
            .group .brace [.id (FQDefault ++ "::default"), .group .paren []]]
  | .Required =>
      let field_unwrapper := unwrap_field field
      [.group .brace
        ([.id "let", .id alias_, .pn "="] ++ field_accessor ++ [.pn ";"]
          ++ [.id "let", .id alias_, .pn "="] ++ field_unwrapper ++ [.pn ";"]
          ++ field_constructor)]

/-- Default `VariantBuilder::on_active_field`, parameterized by the
strategy's `access_field`, `unwrap_field` and `construct_field` hooks:
branch on `attrs.default` to build the construction
(`activeFieldConstruction`), then wrap it in
`<ty as ReflectRemote>::into_remote(..)` when `attrs.remote` is set. -/
def onActiveFieldDefault (reflect_enum : ReflectEnum)
    (access_field : String → VariantField → TokenStream)
    (unwrap_field : VariantField → TokenStream)
    (construct_field : VariantField → TokenStream)
    (this : String) (field : VariantField) : TokenStream :=
  let bevy_reflect_path := reflect_enum.bevy_reflect_path
  let field_ty := field.field.reflected_type
  let construction :=
    activeFieldConstruction access_field unwrap_field construct_field this field
  if field.field.attrs.remote.isSome then
    qpath field_ty (bevy_reflect_path ++ "::ReflectRemote") "into_remote"
      ++ [.group .paren construction]
  else
    construction

/-- Default `VariantBuilder::on_ignored_field`: the configured default
function call for `DefaultBehavior::Func`, `Default::default()` for every
other default behavior. -/
def onIgnoredFieldDefault (field : VariantField) : TokenStream :=
  match field.field.attrs.default with
  | .Func path => [.id path, .group .paren []]
  | _ => [.id (FQDefault ++ "::default"), .group .paren []]

/-- The `VariantBuilder` trait: the enum data, the two required hooks
(`unwrap_field`, `construct_field`) and the three defaultable methods,
with their default bodies as default field values. -/
structure VariantBuilder where
  reflect_enum : ReflectEnum
  unwrap_field : VariantField → TokenStream
  construct_field : VariantField → TokenStream
  access_field : String → VariantField → TokenStream := accessFieldDefault
  on_active_field : String → VariantField → TokenStream :=
    onActiveFieldDefault reflect_enum access_field unwrap_field construct_field
  on_ignored_field : VariantField → TokenStream := onIgnoredFieldDefault

/-- `EnumVariantOutputData`: the three parallel per-variant sequences. -/
structure EnumVariantOutputData where
  variant_names : List String
  variant_patterns : List TokenStream
  variant_constructors : List TokenStream

/-- Comma-separated interpolation `#( #xs ),*` of `quote!`. -/
def sepComma : List TokenStream → TokenStream
  | [] => []
  | [x] => x
  | x :: xs => x ++ [.pn ","] ++ sepComma xs

/-- The per-field body of the loop in `VariantBuilder::build`: the member,
its alias_, and the pattern / constructor entries pushed for the field. -/
def VariantBuilder.fieldEntry (self : VariantBuilder) (this : String)
    (variant_name : String) (field : StructField) : TokenStream × TokenStream :=
  let member := ident_or_index field.data.ident field.declaration_index
  let alias_ := member.aliasIdent
  let variant_field : VariantField :=
    { alias_ := alias_, variant_name := variant_name, field := field }
  let value :=
    if field.attrs.ignore then
      self.on_ignored_field variant_field
    else
      self.on_active_field this variant_field
  (member.toks ++ [.pn ":", .id alias_],
   member.toks ++ [.pn ":"] ++ value)

/-- The per-variant body of the loop in `VariantBuilder::build`: the
variant name, its match pattern and its constructor expression. -/
def VariantBuilder.buildVariant (self : VariantBuilder) (this : String)
    (variant : EnumVariant) : String × TokenStream × TokenStream :=
  let variant_ident := variant.data.ident
  let variant_name := variant_ident
  let variant_path := self.reflect_enum.get_unit variant_ident
  let fields := variant.fields
  let entries := fields.map (self.fieldEntry this variant_name)
  let field_patterns := entries.map Prod.fst
  let field_constructors := entries.map Prod.snd
  let pattern := variant_path ++ [.group .brace (sepComma field_patterns)]
  let constructor := variant_path ++ [.group .brace (sepComma field_constructors)]
  (variant_name, pattern, constructor)

/-- `VariantBuilder::build`: one name, one pattern and one constructor per
variant, in declaration order. -/
def VariantBuilder.build (self : VariantBuilder) (this : String) : EnumVariantOutputData :=
  let rows := self.reflect_enum.variants.map (self.buildVariant this)
  { variant_names := rows.map (fun r => r.1)
    variant_patterns := rows.map (fun r => r.2.1)
    variant_constructors := rows.map (fun r => r.2.2) }

namespace FromReflectImpl

/-- `FromReflectVariantBuilder::unwrap_field`: `#alias?`. -/
def unwrap_field (field : VariantField) : TokenStream :=
  [.id field.alias_, .pn "?"]

/-- `FromReflectVariantBuilder::construct_field`:
`<#field_ty as #bevy_reflect_path::FromReflect>::from_reflect(#alias)?`. -/
def construct_field (reflect_enum : ReflectEnum) (field : VariantField) : TokenStream :=
  let bevy_reflect_path := reflect_enum.bevy_reflect_path
  let field_ty := field.field.reflected_type
  qpath field_ty (bevy_reflect_path ++ "::FromReflect") "from_reflect"
    ++ [.group .paren [.id field.alias_], .pn "?"]

end FromReflectImpl

/-- `FromReflectVariantBuilder`: the reconstruction strategy; overrides
only the two required hooks. -/
def FromReflectVariantBuilder (reflect_enum : ReflectEnum) : VariantBuilder where
  reflect_enum := reflect_enum
  unwrap_field := FromReflectImpl.unwrap_field
  construct_field := FromReflectImpl.construct_field reflect_enum

namespace TryApplyImpl

/-- `TryApplyVariantBuilder::unwrap_field`:
`#alias.ok_or(#bevy_reflect_path::ApplyError::MissingEnumField \x7b
variant_name: Into::into(#variant_name), field_name:
Into::into(#field_name) \x7d)?`, where `field_name` is the field's
identifier or `".N"` for an unnamed field at declaration index `N`. -/
def unwrap_field (reflect_enum : ReflectEnum) (field : VariantField) : TokenStream :=
  let bevy_reflect_path := reflect_enum.bevy_reflect_path
  let field_name :=
    match field.field.data.ident with
    | some ident => ident
    | none => "." ++ toString field.field.declaration_index
  [.id field.alias_, .pn ".", .id "ok_or",
   .group .paren
     [.id (bevy_reflect_path ++ "::ApplyError::MissingEnumField"),
      .group .brace
        [.id "variant_name", .pn ":", .id "::core::convert::Into::into",
         .group .paren [.lit field.variant_name], .pn ",",
         .id "field_name", .pn ":", .id "::core::convert::Into::into",
         .group .paren [.lit field_name]]],
   .pn "?"]

/-- `TryApplyVariantBuilder::construct_field`:
`<#field_ty as FromReflect>::from_reflect(#alias).ok_or(MismatchedTypes
\x7b from_type: Into::into(DynamicTypePath::reflect_type_path(#alias)),
to_type: Into::into(<#field_ty as TypePath>::type_path()) \x7d)?`. -/
def construct_field (reflect_enum : ReflectEnum) (field : VariantField) : TokenStream :=
  let bevy_reflect_path := reflect_enum.bevy_reflect_path
  let field_ty := field.field.reflected_type
  qpath field_ty (bevy_reflect_path ++ "::FromReflect") "from_reflect"
    ++ [.group .paren [.id field.alias_], .pn ".", .id "ok_or",
        .group .paren
          [.id (bevy_reflect_path ++ "::ApplyError::MismatchedTypes"),
           .group .brace
             ([.id "from_type", .pn ":", .id "::core::convert::Into::into",
               .group .paren
                 [.id (bevy_reflect_path ++ "::DynamicTypePath::reflect_type_path"),
                  .group .paren [.id field.alias_]],
               .pn ",",
               .id "to_type", .pn ":", .id "::core::convert::Into::into",
               .group .paren
                 (qpath field_ty (bevy_reflect_path ++ "::TypePath") "type_path"
                   ++ [.group .paren []])])],
        .pn "?"]

end TryApplyImpl

/-- `TryApplyVariantBuilder`: the merge-apply strategy; overrides only
the two required hooks. -/
def TryApplyVariantBuilder (reflect_enum : ReflectEnum) : VariantBuilder where
  reflect_enum := reflect_enum
  unwrap_field := TryApplyImpl.unwrap_field reflect_enum
  construct_field := TryApplyImpl.construct_field reflect_enum

namespace ReflectCloneImpl

/-- `ReflectCloneVariantBuilder::access_field`: `Some(#alias)` — the
field is always reported as present. -/
def access_field (_ident : String) (field : VariantField) : TokenStream :=
  [.id (FQOption ++ "::Some"), .group .paren [.id field.alias_]]

/-- `ReflectCloneVariantBuilder::unwrap_field`: `#alias.unwrap()`. -/
def unwrap_field (field : VariantField) : TokenStream :=
  [.id field.alias_, .pn ".", .id "unwrap", .group .paren []]

/-- The final `match` of `ReflectCloneVariantBuilder::construct_field`:
the branch on `attrs.clone`, applied to the (possibly remote-unwrapped)
alias token stream. -/
def cloneBranch (bevy_reflect_path field_ty : String) (clone : CloneBehavior)
    (alias_ : TokenStream) : TokenStream :=
  match clone with
  | .Default =>
      qpath field_ty (bevy_reflect_path ++ "::PartialReflect") "reflect_clone_and_take"
        ++ [.group .paren alias_, .pn "?"]
  | .Trait => [.id (FQClone ++ "::clone"), .group .paren alias_]
  | .Func clone_fn => [.id clone_fn, .group .paren alias_]

/-- `ReflectCloneVariantBuilder::construct_field`: shadow the alias with
`<#wrapper_ty as ReflectRemote>::as_wrapper(#alias)` when `attrs.remote`
is set, then branch on `attrs.clone` (`cloneBranch`). -/
def construct_field (reflect_enum : ReflectEnum) (field : VariantField) : TokenStream :=
  let bevy_reflect_path := reflect_enum.bevy_reflect_path
  let field_ty := field.field.reflected_type
  let alias_ : TokenStream := [.id field.alias_]
  let alias_ :=
    match field.field.attrs.remote with
    | some wrapper_ty =>
        qpath wrapper_ty (bevy_reflect_path ++ "::ReflectRemote") "as_wrapper"
          ++ [.group .paren alias_]
    | none => alias_
  cloneBranch bevy_reflect_path field_ty field.field.attrs.clone alias_

/-- `ReflectCloneVariantBuilder::on_active_field`: always exactly
`self.construct_field(field)`. -/
def on_active_field (reflect_enum : ReflectEnum) (_this : String)
    (field : VariantField) : TokenStream :=
  construct_field reflect_enum field

/-- `ReflectCloneVariantBuilder::on_ignored_field`: an immediate
`return Err(ReflectCloneError::FieldNotCloneable \x7b .. \x7d)` for the
default clone behavior, `Clone::clone(#alias)` for the trait behavior,
and a zero-argument call `#clone_fn()` for a custom function. -/
def on_ignored_field (reflect_enum : ReflectEnum) (field : VariantField) : TokenStream :=
  let bevy_reflect_path := reflect_enum.bevy_reflect_path
  let variant_name := field.variant_name
  match field.field.attrs.clone with
  | .Default =>
      let field_id := field.field.field_id bevy_reflect_path
      [.id "return", .id (FQResult ++ "::Err"),
       .group .paren
         [.id (bevy_reflect_path ++ "::ReflectCloneError::FieldNotCloneable"),
          .group .brace
            ([.id "field", .pn ":"] ++ field_id ++ [.pn ",",
              .id "variant", .pn ":", .id (FQOption ++ "::Some"),
              .group .paren
                [.id (bevy_reflect_path ++ "::__macro_exports::alloc_utils::Cow::Borrowed"),
                 .group .paren [.lit variant_name]],
              .pn ",",
              .id "container_type_path", .pn ":",
              .id (bevy_reflect_path ++ "::__macro_exports::alloc_utils::Cow::Borrowed"),
              .group .paren
                (qpath "Self" (bevy_reflect_path ++ "::TypePath") "type_path"
                  ++ [.group .paren []])])]]
  | .Trait => [.id (FQClone ++ "::clone"), .group .paren [.id field.alias_]]
  | .Func clone_fn => [.id clone_fn, .group .paren []]

end ReflectCloneImpl

/-- `ReflectCloneVariantBuilder`: the structural-clone strategy;
overrides the two required hooks and also `access_field`,
`on_active_field` and `on_ignored_field`. -/
def ReflectCloneVariantBuilder (reflect_enum : ReflectEnum) : VariantBuilder where
  reflect_enum := reflect_enum
  unwrap_field := ReflectCloneImpl.unwrap_field
  construct_field := ReflectCloneImpl.construct_field reflect_enum
  access_field := ReflectCloneImpl.access_field
  on_active_field := ReflectCloneImpl.on_active_field reflect_enum
  on_ignored_field := ReflectCloneImpl.on_ignored_field reflect_enum

/-! Concrete fixtures, following the examples in the derive macro's
documentation: `Shape := Circle (radius : f32) | Point` and the
positional variant `Pair(i32, i32, i32)`. -/

/-- The `radius: f32` field of `Shape::Circle`. -/
def radiusField : StructField :=
  { data := { ident := some "radius" }
    attrs := { ignore := false, default := .Required, clone := .Default, remote := none }
    declaration_index := 0
    reflection_index := some 0
    reflected_type := "f32" }

/-- The third (declaration index 2) unnamed `i32` field of `Pair`. -/
def pairField2 : StructField :=
  { data := { ident := none }
    attrs := { ignore := false, default := .Required, clone := .Default, remote := none }
    declaration_index := 2
    reflection_index := some 2
    reflected_type := "i32" }

/-- The `Shape` enum descriptor. -/
def shapeEnum : ReflectEnum :=
  { variants :=
      [ { data := { ident := "Circle" }, fields := [radiusField] }
      , { data := { ident := "Point" }, fields := [] } ]
    bevy_reflect_path := "bevy_reflect"
    enum_path := "Shape" }

/-- The `VariantField` view of `radius` inside `Shape::Circle`. -/
def radiusVF : VariantField :=
  { alias_ := "_radius", variant_name := "Circle", field := radiusField }

/-- The `VariantField` view of the index-2 field inside `Pair`. -/
def pair2VF : VariantField :=
  { alias_ := "_2", variant_name := "Pair", field := pairField2 }

/-- An ignored field with the default (deep-reflect) clone behavior. -/
def ignoredDeepField : StructField :=
  { data := { ident := some "cache" }
    attrs := { ignore := true, default := .Required, clone := .Default, remote := none }
    declaration_index := 1
    reflection_index := none
    reflected_type := "Cache" }

/-- The `VariantField` view of the ignored `cache` field. -/
def ignoredDeepVF : VariantField :=
  { alias_ := "_cache", variant_name := "Circle", field := ignoredDeepField }

/-- An active field with a remote wrapper type configured. -/
def remoteField : StructField :=
  { data := { ident := some "pos" }
    attrs := { ignore := false, default := .Default, clone := .Trait
               remote := some "RemoteVec" }
    declaration_index := 0
    reflection_index := some 0
    reflected_type := "ExternalVec" }

/-- The `VariantField` view of the remote-wrapped `pos` field. -/
def remoteVF : VariantField :=
  { alias_ := "_pos", variant_name := "Circle", field := remoteField }

/-! Theorems: the claims, settled against the embedding above. -/

/-- C1: for every enum descriptor and every strategy, `build` returns
three sequences (`variant_names`, `variant_patterns`,
`variant_constructors`) whose common length is the number of variants of
the descriptor, and the entries are index-aligned in declaration order:
the k-th name is the k-th variant's identifier and the k-th pattern and
constructor are exactly the ones `buildVariant` (the per-variant loop
body) produces for the k-th variant. -/
theorem build_output_lengths (b : VariantBuilder) (this : String) :
    ((b.build this).variant_names.length = b.reflect_enum.variants.length ∧
     (b.build this).variant_patterns.length = b.reflect_enum.variants.length ∧
     (b.build this).variant_constructors.length = b.reflect_enum.variants.length) ∧
    (∀ k, k < b.reflect_enum.variants.length →
      (b.build this).variant_names[k]! = (b.reflect_enum.variants[k]!).data.ident ∧
      (b.build this).variant_patterns[k]! =
        (b.buildVariant this (b.reflect_enum.variants[k]!)).2.1 ∧
      (b.build this).variant_constructors[k]! =
        (b.buildVariant this (b.reflect_enum.variants[k]!)).2.2) := by
  refine ⟨⟨by simp [VariantBuilder.build], by simp [VariantBuilder.build],
           by simp [VariantBuilder.build]⟩, fun k hk => ?_⟩
  have hv : (b.reflect_enum.variants[k]!) = b.reflect_enum.variants[k] :=
    getElem!_pos (b.reflect_enum.variants) k hk
  have h1 : k < (b.build this).variant_names.length := by
    simp [VariantBuilder.build, hk]
  have h2 : k < (b.build this).variant_patterns.length := by
    simp [VariantBuilder.build, hk]
  have h3 : k < (b.build this).variant_constructors.length := by
    simp [VariantBuilder.build, hk]
  refine ⟨?_, ?_, ?_⟩
  · rw [getElem!_pos ((b.build this).variant_names) k h1]
    simp [VariantBuilder.build, VariantBuilder.buildVariant, hv]
  · rw [getElem!_pos ((b.build this).variant_patterns) k h2]
    simp [VariantBuilder.build, hv]
  · rw [getElem!_pos ((b.build this).variant_constructors) k h3]
    simp [VariantBuilder.build, hv]

/-- Witness for C1 at the `Shape` descriptor, reconstruction strategy,
variant 1 (the zero-field `Point`). -/
theorem build_output_lengths_witness :
    1 < (FromReflectVariantBuilder shapeEnum).reflect_enum.variants.length ∧
    (((FromReflectVariantBuilder shapeEnum).build "this").variant_names[1]! =
      ((FromReflectVariantBuilder shapeEnum).reflect_enum.variants[1]!).data.ident ∧
     ((FromReflectVariantBuilder shapeEnum).build "this").variant_patterns[1]! =
      ((FromReflectVariantBuilder shapeEnum).buildVariant "this"
        ((FromReflectVariantBuilder shapeEnum).reflect_enum.variants[1]!)).2.1 ∧
     ((FromReflectVariantBuilder shapeEnum).build "this").variant_constructors[1]! =
      ((FromReflectVariantBuilder shapeEnum).buildVariant "this"
        ((FromReflectVariantBuilder shapeEnum).reflect_enum.variants[1]!)).2.2) :=
  ⟨by decide,
   (build_output_lengths (FromReflectVariantBuilder shapeEnum) "this").2 1 (by decide)⟩

/-- C2: for every strategy and every variant, each field of the variant
contributes exactly one `member: alias` entry to the variant's pattern
and exactly one `member: value` entry to its constructor, in declaration
order, whatever its ignore/default/clone/remote policy. -/
theorem build_one_slot_per_field (b : VariantBuilder) (this : String) (k i : Nat)
    (hk : k < b.reflect_enum.variants.length)
    (hi : i < (b.reflect_enum.variants[k]!).fields.length) :
    ∃ pats cons : List TokenStream,
      pats.length = (b.reflect_enum.variants[k]!).fields.length ∧
      cons.length = (b.reflect_enum.variants[k]!).fields.length ∧
      (b.build this).variant_patterns[k]! =
        b.reflect_enum.get_unit (b.reflect_enum.variants[k]!).data.ident
          ++ [Tok.group .brace (sepComma pats)] ∧
      (b.build this).variant_constructors[k]! =
        b.reflect_enum.get_unit (b.reflect_enum.variants[k]!).data.ident
          ++ [Tok.group .brace (sepComma cons)] ∧
      (let field := (b.reflect_enum.variants[k]!).fields[i]!
       let member := ident_or_index field.data.ident field.declaration_index
       let vf : VariantField :=
         { alias_ := member.aliasIdent
           variant_name := (b.reflect_enum.variants[k]!).data.ident
           field := field }
       pats[i]! = member.toks ++ [Tok.pn ":", Tok.id member.aliasIdent] ∧
       cons[i]! = member.toks ++ [Tok.pn ":"] ++
         (if field.attrs.ignore then b.on_ignored_field vf
          else b.on_active_field this vf)) := by
  have hv : (b.reflect_enum.variants[k]!) = b.reflect_enum.variants[k] :=
    getElem!_pos (b.reflect_enum.variants) k hk
  set v := b.reflect_enum.variants[k] with hvdef
  refine ⟨(v.fields.map (b.fieldEntry this v.data.ident)).map Prod.fst,
          (v.fields.map (b.fieldEntry this v.data.ident)).map Prod.snd, ?_, ?_, ?_, ?_, ?_, ?_⟩
  · simp [hv]
  · simp [hv]
  · have hk2 : k < (b.build this).variant_patterns.length := by
      simp [VariantBuilder.build, hk]
    rw [getElem!_pos ((b.build this).variant_patterns) k hk2]
    simp [VariantBuilder.build, VariantBuilder.buildVariant, hv]
  · have hk2 : k < (b.build this).variant_constructors.length := by
      simp [VariantBuilder.build, hk]
    rw [getElem!_pos ((b.build this).variant_constructors) k hk2]
    simp [VariantBuilder.build, VariantBuilder.buildVariant, hv]
  · have hi2 : i < ((v.fields.map (b.fieldEntry this v.data.ident)).map Prod.fst).length := by
      simpa [hv] using hi
    have hi3 : i < v.fields.length := by simpa [hv] using hi
    rw [getElem!_pos ((v.fields.map (b.fieldEntry this v.data.ident)).map Prod.fst) i hi2,
        getElem!_pos (b.reflect_enum.variants[k]!.fields) i (by simpa [hv] using hi3)]
    simp [VariantBuilder.fieldEntry, hv]
  · have hi2 : i < ((v.fields.map (b.fieldEntry this v.data.ident)).map Prod.snd).length := by
      simpa [hv] using hi
    have hi3 : i < v.fields.length := by simpa [hv] using hi
    rw [getElem!_pos ((v.fields.map (b.fieldEntry this v.data.ident)).map Prod.snd) i hi2,
        getElem!_pos (b.reflect_enum.variants[k]!.fields) i (by simpa [hv] using hi3)]
    simp [VariantBuilder.fieldEntry, hv]

/-- Witness for C2 at the `Shape` descriptor, reconstruction strategy,
variant 0 (`Circle`), field 0 (`radius`). -/
theorem build_one_slot_per_field_witness :
    0 < (FromReflectVariantBuilder shapeEnum).reflect_enum.variants.length ∧
    0 < ((FromReflectVariantBuilder shapeEnum).reflect_enum.variants[0]!).fields.length ∧
    (∃ pats cons : List TokenStream,
      pats.length =
        ((FromReflectVariantBuilder shapeEnum).reflect_enum.variants[0]!).fields.length ∧
      cons.length =
        ((FromReflectVariantBuilder shapeEnum).reflect_enum.variants[0]!).fields.length ∧
      ((FromReflectVariantBuilder shapeEnum).build "this").variant_patterns[0]! =
        (FromReflectVariantBuilder shapeEnum).reflect_enum.get_unit
            ((FromReflectVariantBuilder shapeEnum).reflect_enum.variants[0]!).data.ident
          ++ [Tok.group .brace (sepComma pats)] ∧
      ((FromReflectVariantBuilder shapeEnum).build "this").variant_constructors[0]! =
        (FromReflectVariantBuilder shapeEnum).reflect_enum.get_unit
            ((FromReflectVariantBuilder shapeEnum).reflect_enum.variants[0]!).data.ident
          ++ [Tok.group .brace (sepComma cons)] ∧
      (let field := ((FromReflectVariantBuilder shapeEnum).reflect_enum.variants[0]!).fields[0]!
       let member := ident_or_index field.data.ident field.declaration_index
       let vf : VariantField :=
         { alias_ := member.aliasIdent
           variant_name :=
             ((FromReflectVariantBuilder shapeEnum).reflect_enum.variants[0]!).data.ident
           field := field }
       pats[0]! = member.toks ++ [Tok.pn ":", Tok.id member.aliasIdent] ∧
       cons[0]! = member.toks ++ [Tok.pn ":"] ++
         (if field.attrs.ignore then (FromReflectVariantBuilder shapeEnum).on_ignored_field vf
          else (FromReflectVariantBuilder shapeEnum).on_active_field "this" vf))) :=
  ⟨by decide, by decide,
   build_one_slot_per_field (FromReflectVariantBuilder shapeEnum) "this" 0 0
     (by decide) (by decide)⟩

/-- C3: the default `on_active_field` dispatches on the field's default
behavior: for required-no-default it binds the accessed value to the
alias, applies the strategy's `unwrap_field`, then `construct_field`;
for an explicit default function or trait-default it emits a conditional
whose present-branch is `construct_field` and whose fallback branch is
exactly the configured default-producing call (so it contains no
`construct_field` output — the fallback shown does not depend on `cf`). -/
theorem on_active_field_default_dispatch (re : ReflectEnum)
    (af : String → VariantField → TokenStream)
    (uf cf : VariantField → TokenStream)
    (this : String) (field : VariantField)
    (hremote : field.field.attrs.remote = none) :
    (field.field.attrs.default = DefaultBehavior.Required →
      onActiveFieldDefault re af uf cf this field =
        [Tok.group .brace
          ([Tok.id "let", Tok.id field.alias_, Tok.pn "="] ++ af this field ++ [Tok.pn ";"]
            ++ [Tok.id "let", Tok.id field.alias_, Tok.pn "="] ++ uf field ++ [Tok.pn ";"]
            ++ cf field)]) ∧
    (∀ path, field.field.attrs.default = DefaultBehavior.Func path →
      onActiveFieldDefault re af uf cf this field =
        [Tok.id "if", Tok.id "let", Tok.id (FQOption ++ "::Some"),
         Tok.group .paren [Tok.id field.alias_], Tok.pn "="]
          ++ af this field
          ++ [Tok.group .brace (cf field), Tok.id "else",
              Tok.group .brace [Tok.id path, Tok.group .paren []]]) ∧
    (field.field.attrs.default = DefaultBehavior.Default →
      onActiveFieldDefault re af uf cf this field =
        [Tok.id "if", Tok.id "let", Tok.id (FQOption ++ "::Some"),
         Tok.group .paren [Tok.id field.alias_], Tok.pn "="]
          ++ af this field
          ++ [Tok.group .brace (cf field), Tok.id "else",
              Tok.group .brace [Tok.id (FQDefault ++ "::default"), Tok.group .paren []]]) := by
  refine ⟨fun h => ?_, fun path h => ?_, fun h => ?_⟩ <;>
    simp [onActiveFieldDefault, activeFieldConstruction, hremote, h]

/-- Witness for C3: the required-no-default `radius` field under the
reconstruction strategy's hooks. -/
theorem on_active_field_default_dispatch_witness :
    radiusVF.field.attrs.remote = none ∧
    radiusVF.field.attrs.default = DefaultBehavior.Required ∧
    onActiveFieldDefault shapeEnum accessFieldDefault FromReflectImpl.unwrap_field
      (FromReflectImpl.construct_field shapeEnum) "this" radiusVF =
      [Tok.group .brace
        ([Tok.id "let", Tok.id "_radius", Tok.pn "="]
          ++ accessFieldDefault "this" radiusVF ++ [Tok.pn ";"]
          ++ [Tok.id "let", Tok.id "_radius", Tok.pn "="]
          ++ FromReflectImpl.unwrap_field radiusVF ++ [Tok.pn ";"]
          ++ FromReflectImpl.construct_field shapeEnum radiusVF)] :=
  ⟨rfl, rfl,
   (on_active_field_default_dispatch shapeEnum accessFieldDefault
      FromReflectImpl.unwrap_field (FromReflectImpl.construct_field shapeEnum)
      "this" radiusVF rfl).1 rfl⟩

/-- C4: the merge-apply strategy's `unwrap_field` emits
`alias.ok_or(ApplyError::MissingEnumField \x7b variant_name, field_name
\x7d)?` where the carried field identifier is the field's name for named
fields and `".N"` for an unnamed field at declaration index `N`. -/
theorem tryApply_unwrap_field_missing (re : ReflectEnum) (field : VariantField) :
    (∀ name, field.field.data.ident = some name →
      (TryApplyVariantBuilder re).unwrap_field field =
        [Tok.id field.alias_, Tok.pn ".", Tok.id "ok_or",
         Tok.group .paren
           [Tok.id (re.bevy_reflect_path ++ "::ApplyError::MissingEnumField"),
            Tok.group .brace
              [Tok.id "variant_name", Tok.pn ":", Tok.id "::core::convert::Into::into",
               Tok.group .paren [Tok.lit field.variant_name], Tok.pn ",",
               Tok.id "field_name", Tok.pn ":", Tok.id "::core::convert::Into::into",
               Tok.group .paren [Tok.lit name]]],
         Tok.pn "?"]) ∧
    (field.field.data.ident = none →
      (TryApplyVariantBuilder re).unwrap_field field =
        [Tok.id field.alias_, Tok.pn ".", Tok.id "ok_or",
         Tok.group .paren
           [Tok.id (re.bevy_reflect_path ++ "::ApplyError::MissingEnumField"),
            Tok.group .brace
              [Tok.id "variant_name", Tok.pn ":", Tok.id "::core::convert::Into::into",
               Tok.group .paren [Tok.lit field.variant_name], Tok.pn ",",
               Tok.id "field_name", Tok.pn ":", Tok.id "::core::convert::Into::into",
               Tok.group .paren
                 [Tok.lit ("." ++ toString field.field.declaration_index)]]],
         Tok.pn "?"]) := by
  refine ⟨fun name h => ?_, fun h => ?_⟩ <;>
    simp [TryApplyVariantBuilder, TryApplyImpl.unwrap_field, h]

/-- Witness for C4: the unnamed `Pair` field at declaration index 2
renders as the positional marker `".2"`. -/
theorem tryApply_unwrap_field_missing_witness :
    pair2VF.field.data.ident = none ∧
    (TryApplyVariantBuilder shapeEnum).unwrap_field pair2VF =
      [Tok.id "_2", Tok.pn ".", Tok.id "ok_or",
       Tok.group .paren
         [Tok.id "bevy_reflect::ApplyError::MissingEnumField",
          Tok.group .brace
            [Tok.id "variant_name", Tok.pn ":", Tok.id "::core::convert::Into::into",
             Tok.group .paren [Tok.lit "Pair"], Tok.pn ",",
             Tok.id "field_name", Tok.pn ":", Tok.id "::core::convert::Into::into",
             Tok.group .paren [Tok.lit ".2"]]],
       Tok.pn "?"] :=
  ⟨rfl, (tryApply_unwrap_field_missing shapeEnum pair2VF).2 rfl⟩

/-- C5: the merge-apply strategy's `construct_field` emits
`from_reflect(alias).ok_or(ApplyError::MismatchedTypes \x7b from_type,
to_type \x7d)?` where `from_type` is obtained by querying the mismatched
value itself (`DynamicTypePath::reflect_type_path(alias)`) and `to_type`
is the field's expected static type path
(`<field_ty as TypePath>::type_path()`). -/
theorem tryApply_construct_field_mismatched (re : ReflectEnum) (field : VariantField) :
    (TryApplyVariantBuilder re).construct_field field =
      qpath field.field.reflected_type (re.bevy_reflect_path ++ "::FromReflect") "from_reflect"
        ++ [Tok.group .paren [Tok.id field.alias_], Tok.pn ".", Tok.id "ok_or",
            Tok.group .paren
              [Tok.id (re.bevy_reflect_path ++ "::ApplyError::MismatchedTypes"),
               Tok.group .brace
                 ([Tok.id "from_type", Tok.pn ":", Tok.id "::core::convert::Into::into",
                   Tok.group .paren
                     [Tok.id (re.bevy_reflect_path ++ "::DynamicTypePath::reflect_type_path"),
                      Tok.group .paren [Tok.id field.alias_]],
                   Tok.pn ",",
                   Tok.id "to_type", Tok.pn ":", Tok.id "::core::convert::Into::into",
                   Tok.group .paren
                     (qpath field.field.reflected_type
                        (re.bevy_reflect_path ++ "::TypePath") "type_path"
                       ++ [Tok.group .paren []])])],
            Tok.pn "?"] := rfl

/-- C6: the structural-clone strategy's `on_ignored_field` branches on
the clone behavior: the default (deep-reflect-clone) behavior emits an
immediate `return Err(ReflectCloneError::FieldNotCloneable ..)` carrying
the field identifier, the owning variant name (`Some(Cow::Borrowed(..))`)
and the containing type path (`<Self as TypePath>::type_path()`); the
trait behavior emits `Clone::clone(alias)`; a custom function behavior
emits a zero-argument call of that function. -/
theorem reflectClone_on_ignored_field_dispatch (re : ReflectEnum) (field : VariantField) :
    (field.field.attrs.clone = CloneBehavior.Default →
      (ReflectCloneVariantBuilder re).on_ignored_field field =
        [Tok.id "return", Tok.id (FQResult ++ "::Err"),
         Tok.group .paren
           [Tok.id (re.bevy_reflect_path ++ "::ReflectCloneError::FieldNotCloneable"),
            Tok.group .brace
              ([Tok.id "field", Tok.pn ":"] ++ field.field.field_id re.bevy_reflect_path
                ++ [Tok.pn ",",
                    Tok.id "variant", Tok.pn ":", Tok.id (FQOption ++ "::Some"),
                    Tok.group .paren
                      [Tok.id (re.bevy_reflect_path
                         ++ "::__macro_exports::alloc_utils::Cow::Borrowed"),
                       Tok.group .paren [Tok.lit field.variant_name]],
                    Tok.pn ",",
                    Tok.id "container_type_path", Tok.pn ":",
                    Tok.id (re.bevy_reflect_path
                      ++ "::__macro_exports::alloc_utils::Cow::Borrowed"),
                    Tok.group .paren
                      (qpath "Self" (re.bevy_reflect_path ++ "::TypePath") "type_path"
                        ++ [Tok.group .paren []])])]]) ∧
    (field.field.attrs.clone = CloneBehavior.Trait →
      (ReflectCloneVariantBuilder re).on_ignored_field field =
        [Tok.id (FQClone ++ "::clone"), Tok.group .paren [Tok.id field.alias_]]) ∧
    (∀ f, field.field.attrs.clone = CloneBehavior.Func f →
      (ReflectCloneVariantBuilder re).on_ignored_field field =
        [Tok.id f, Tok.group .paren []]) := by
  refine ⟨fun h => ?_, fun h => ?_, fun f h => ?_⟩ <;>
    simp [ReflectCloneVariantBuilder, ReflectCloneImpl.on_ignored_field, h]

/-- Witness for C6: the ignored `cache` field with the default
deep-reflect clone behavior yields the `FieldNotCloneable` error
fragment. -/
theorem reflectClone_on_ignored_field_dispatch_witness :
    ignoredDeepVF.field.attrs.clone = CloneBehavior.Default ∧
    (ReflectCloneVariantBuilder shapeEnum).on_ignored_field ignoredDeepVF =
      [Tok.id "return", Tok.id (FQResult ++ "::Err"),
       Tok.group .paren
         [Tok.id "bevy_reflect::ReflectCloneError::FieldNotCloneable",
          Tok.group .brace
            ([Tok.id "field", Tok.pn ":"] ++ ignoredDeepField.field_id "bevy_reflect"
              ++ [Tok.pn ",",
                  Tok.id "variant", Tok.pn ":", Tok.id (FQOption ++ "::Some"),
                  Tok.group .paren
                    [Tok.id "bevy_reflect::__macro_exports::alloc_utils::Cow::Borrowed",
                     Tok.group .paren [Tok.lit "Circle"]],
                  Tok.pn ",",
                  Tok.id "container_type_path", Tok.pn ":",
                  Tok.id "bevy_reflect::__macro_exports::alloc_utils::Cow::Borrowed",
                  Tok.group .paren
                    (qpath "Self" "bevy_reflect::TypePath" "type_path"
                      ++ [Tok.group .paren []])])]] :=
  ⟨rfl, (reflectClone_on_ignored_field_dispatch shapeEnum ignoredDeepVF).1 rfl⟩

/-- C7: the structural-clone strategy's `access_field` always reports the
field as present (`Some(alias)`), and its `on_active_field` is exactly
its `construct_field` for every field — no default-vs-required branching
and no absent-field fallback. -/
theorem reflectClone_access_and_active_bypass (re : ReflectEnum) (this : String)
    (field : VariantField) :
    (ReflectCloneVariantBuilder re).access_field this field =
      [Tok.id (FQOption ++ "::Some"), Tok.group .paren [Tok.id field.alias_]] ∧
    (ReflectCloneVariantBuilder re).on_active_field this field =
      (ReflectCloneVariantBuilder re).construct_field field :=
  ⟨rfl, rfl⟩

/-- C8: when a field has a remote wrapper, the default `on_active_field`
wraps the whole active-field construction (fallback branch included) in
`<field_ty as ReflectRemote>::into_remote(..)`; and the structural-clone
strategy's `construct_field` substitutes
`<wrapper as ReflectRemote>::as_wrapper(alias)` for the alias before
branching on the clone behavior. -/
theorem remote_field_wrapping (re : ReflectEnum)
    (af : String → VariantField → TokenStream)
    (uf cf : VariantField → TokenStream)
    (this : String) (field : VariantField) :
    (∀ w, field.field.attrs.remote = some w →
      onActiveFieldDefault re af uf cf this field =
        qpath field.field.reflected_type (re.bevy_reflect_path ++ "::ReflectRemote")
            "into_remote"
          ++ [Tok.group .paren (activeFieldConstruction af uf cf this field)]) ∧
    (∀ w, field.field.attrs.remote = some w →
      (ReflectCloneVariantBuilder re).construct_field field =
        ReflectCloneImpl.cloneBranch re.bevy_reflect_path field.field.reflected_type
          field.field.attrs.clone
          (qpath w (re.bevy_reflect_path ++ "::ReflectRemote") "as_wrapper"
            ++ [Tok.group .paren [Tok.id field.alias_]])) := by
  refine ⟨fun w h => ?_, fun w h => ?_⟩
  · simp [onActiveFieldDefault, h]
  · simp [ReflectCloneVariantBuilder, ReflectCloneImpl.construct_field, h]

/-- Witness for C8: the remote-wrapped `pos` field. -/
theorem remote_field_wrapping_witness :
    remoteVF.field.attrs.remote = some "RemoteVec" ∧
    onActiveFieldDefault shapeEnum accessFieldDefault FromReflectImpl.unwrap_field
      (FromReflectImpl.construct_field shapeEnum) "this" remoteVF =
      qpath "ExternalVec" "bevy_reflect::ReflectRemote" "into_remote"
        ++ [Tok.group .paren
             (activeFieldConstruction accessFieldDefault FromReflectImpl.unwrap_field
               (FromReflectImpl.construct_field shapeEnum) "this" remoteVF)] ∧
    (ReflectCloneVariantBuilder shapeEnum).construct_field remoteVF =
      ReflectCloneImpl.cloneBranch "bevy_reflect" "ExternalVec" CloneBehavior.Trait
        (qpath "RemoteVec" "bevy_reflect::ReflectRemote" "as_wrapper"
          ++ [Tok.group .paren [Tok.id "_pos"]]) :=
  ⟨rfl,
   (remote_field_wrapping shapeEnum accessFieldDefault FromReflectImpl.unwrap_field
      (FromReflectImpl.construct_field shapeEnum) "this" remoteVF).1 "RemoteVec" rfl,
   (remote_field_wrapping shapeEnum accessFieldDefault FromReflectImpl.unwrap_field
      (FromReflectImpl.construct_field shapeEnum) "this" remoteVF).2 "RemoteVec" rfl⟩

/-- C9: the default `access_field` emits a name-based lookup for a field
with an identifier, an index-based lookup for a field with a reflection
index, and the internal-error stand-in exactly when the field has
neither identity. -/
theorem access_field_default_identity (this : String) (field : VariantField) :
    (∀ name, field.field.data.ident = some name →
      accessFieldDefault this field =
        [Tok.id this, Tok.pn ".", Tok.id "field", Tok.group .paren [Tok.lit name]]) ∧
    (∀ ix, field.field.data.ident = none → field.field.reflection_index = some ix →
      accessFieldDefault this field =
        [Tok.id this, Tok.pn ".", Tok.id "field_at", Tok.group .paren [Tok.nat ix]]) ∧
    (accessFieldDefault this field = internalErrorToks ↔
      field.field.data.ident = none ∧ field.field.reflection_index = none) := by
  refine ⟨fun name h => ?_, fun ix h h2 => ?_, ?_⟩
  · simp [accessFieldDefault, h]
  · simp [accessFieldDefault, h, h2]
  · rcases hident : field.field.data.ident with _ | name
    · rcases hidx : field.field.reflection_index with _ | ix
      · simp [accessFieldDefault, hident, hidx]
      · simp [accessFieldDefault, hident, hidx, internalErrorToks]
    · simp [accessFieldDefault, hident, internalErrorToks]

/-- Witness for C9: the named `radius` field produces a name-based
lookup. -/
theorem access_field_default_identity_witness :
    radiusVF.field.data.ident = some "radius" ∧
    accessFieldDefault "this" radiusVF =
      [Tok.id "this", Tok.pn ".", Tok.id "field", Tok.group .paren [Tok.lit "radius"]] :=
  ⟨rfl, (access_field_default_identity "this" radiusVF).1 "radius" rfl⟩

/-- C10: for the two strategies that keep the base `on_ignored_field`
(reconstruction and merge-apply), an ignored field whose default
behavior is required-no-default gets `Default::default()` as its
constructor value — exactly as if its behavior were trait-default — and
only an explicit default function changes the emitted expression. -/
theorem on_ignored_field_required_defaults (re : ReflectEnum) (field : VariantField) :
    ((FromReflectVariantBuilder re).on_ignored_field = onIgnoredFieldDefault ∧
     (TryApplyVariantBuilder re).on_ignored_field = onIgnoredFieldDefault) ∧
    (field.field.attrs.default = DefaultBehavior.Required →
      onIgnoredFieldDefault field =
        [Tok.id (FQDefault ++ "::default"), Tok.group .paren []] ∧
      onIgnoredFieldDefault field =
        onIgnoredFieldDefault
          { field with
              field := { field.field with
                attrs := { field.field.attrs with default := DefaultBehavior.Default } } }) ∧
    (∀ path, field.field.attrs.default = DefaultBehavior.Func path →
      onIgnoredFieldDefault field = [Tok.id path, Tok.group .paren []]) := by
  refine ⟨⟨rfl, rfl⟩, fun h => ?_, fun path h => ?_⟩
  · exact ⟨by simp [onIgnoredFieldDefault, h], by simp [onIgnoredFieldDefault, h]⟩
  · simp [onIgnoredFieldDefault, h]

/-- Witness for C10: the ignored `cache` field is required-no-default and
still receives `Default::default()`. -/
theorem on_ignored_field_required_defaults_witness :
    ignoredDeepVF.field.attrs.default = DefaultBehavior.Required ∧
    onIgnoredFieldDefault ignoredDeepVF =
      [Tok.id (FQDefault ++ "::default"), Tok.group .paren []] :=
  ⟨rfl, ((on_ignored_field_required_defaults shapeEnum ignoredDeepVF).2.1 rfl).1⟩

end EnumUtility
